import Mathlib

/-!
Shallow embedding of the movie-ticketing MCP server core:
the generic RESTful adapter and response normalizer in
`src/movie_ticketing_mcp_server/http_client.py`, and the hand-written
`get_tickets` tool in `src/movie_ticketing_mcp_server/server.py`.

The network transport is abstracted as a function from the outbound
`Request` that the adapter builds to the backend `Response`.  The parts of
the httpx library that the adapter relies on (header merging between the
client-level default headers and per-call headers, `raise_for_status`,
`response.json`) are modelled from the library's documented behaviour:
`raise_for_status` raises `HTTPStatusError` on every non-2xx status, with a
message formatted from the status code, reason phrase and URL (the
no-redirect-location form), never from the body; per-call headers override
the client headers key-by-key, case-insensitively, and leave the remaining
client headers in place; `response.json` parses the body text and fails on
a body that is not valid JSON.  A `Response` carries the outcome of that
parse directly as an `Except` value.
-/

/-- Parsed JSON values, as produced by the transport library's body parser. -/
inductive Json where
  | null : Json
  | bool : Bool → Json
  | num : Int → Json
  | str : String → Json
  | arr : List Json → Json
  | obj : List (String × Json) → Json

mutual
/-- Python `str` rendering of a parsed JSON value, as produced by the
f-string interpolation of the result in the tool: repr style with
single-quoted strings, True, False and None keywords, bracketed lists and
braced dicts.  Modelled for strings that need no escaping. -/
def pythonRepr : Json → String
  | Json.null => "None"
  | Json.bool true => "True"
  | Json.bool false => "False"
  | Json.num n => toString n
  | Json.str s => "\x27" ++ s ++ "\x27"
  | Json.arr xs => "[" ++ pythonReprElems xs ++ "]"
  | Json.obj fs => "\x7b" ++ pythonReprFields fs ++ "\x7d"

def pythonReprElems : List Json → String
  | [] => ""
  | [x] => pythonRepr x
  | x :: y :: xs => pythonRepr x ++ ", " ++ pythonReprElems (y :: xs)

def pythonReprFields : List (String × Json) → String
  | [] => ""
  | [(k, v)] => "\x27" ++ k ++ "\x27: " ++ pythonRepr v
  | (k, v) :: f :: fs =>
      "\x27" ++ k ++ "\x27: " ++ pythonRepr v ++ ", " ++ pythonReprFields (f :: fs)
end

/-- Header mappings: ordered association lists of name-value pairs,
modelling Python dicts of strings (and the entry list of httpx Headers). -/
abbrev Headers := List (String × String)

/-- Query parameter mappings; a value is a string or Python None. -/
abbrev QueryParams := List (String × Option String)

/-- Python dict membership test (exact, case-sensitive keys), as used by
the constructor's check `"Content-Type" not in self.default_headers`. -/
def dictContains (d : Headers) (k : String) : Bool :=
  d.any (fun kv => kv.1 == k)

/-- Python dict lookup (exact, case-sensitive keys). -/
def dictGet (d : Headers) (k : String) : Option String :=
  (d.find? (fun kv => kv.1 == k)).map (fun kv => kv.2)

/-- Python dict assignment `d[k] = v`: replace the value at an existing
key in place, otherwise append the new entry at the end. -/
def dictSet (d : Headers) (k v : String) : Headers :=
  match d with
  | [] => [(k, v)]
  | kv :: rest => if kv.1 == k then (k, v) :: rest else kv :: dictSet rest k v

/-- ASCII lowercase of one character, for header-name normalization. -/
def lowerChar (c : Char) : Char :=
  if 65 ≤ c.toNat ∧ c.toNat ≤ 90 then Char.ofNat (c.toNat + 32) else c

/-- ASCII lowercase of a header name, as applied by httpx to header keys
(header names are ASCII). -/
def lowerName (s : String) : String := String.mk (s.toList.map lowerChar)

/-- Case-insensitive header-name membership, as in httpx Headers. -/
def hasHeaderCI (h : Headers) (k : String) : Bool :=
  h.any (fun kv => lowerName kv.1 == lowerName k)

/-- Case-insensitive header lookup, as in httpx Headers. -/
def getHeaderCI (h : Headers) (k : String) : Option String :=
  (h.find? (fun kv => lowerName kv.1 == lowerName k)).map (fun kv => kv.2)

/-- httpx merging of client-level headers with per-request headers: every
client header whose name also appears (case-insensitively) among the
per-request headers is dropped, and the per-request headers are appended.
Per-request entries override per key; the rest of the defaults remain. -/
def mergeHeaders (defaults percall : Headers) : Headers :=
  defaults.filter (fun kv => !(hasHeaderCI percall kv.1)) ++ percall

/-- A per-call headers argument of None contributes no per-request headers. -/
def headersOrEmpty : Option Headers → Headers
  | some h => h
  | none => []

/-- Python `s.lstrip("/")`: drop every leading slash character. -/
def lstripSlashes (s : String) : String :=
  String.mk (s.toList.dropWhile (fun c => c == '/'))

/-- Python `s.rstrip("/")`: drop every trailing slash character. -/
def rstripSlashes (s : String) : String :=
  String.mk ((s.toList.reverse.dropWhile (fun c => c == '/')).reverse)

/-- An HTTP response as seen by the adapter: status code, reason phrase,
request URL (both used only by the httpx error message), decoded body text
and the outcome of parsing the body as JSON (`response.json`). -/
structure Response where
  status_code : Nat
  reason_phrase : String
  url : String
  text : String
  jsonBody : Except String Json

/-- httpx `Response.is_success`: status in the 2xx range. -/
def Response.is_success (r : Response) : Bool :=
  decide (200 ≤ r.status_code ∧ r.status_code < 300)

/-- The httpx status-class label used in HTTPStatusError messages. -/
def statusClassLabel (status : Nat) : String :=
  if status / 100 = 1 then "Informational response"
  else if status / 100 = 3 then "Redirect response"
  else if status / 100 = 4 then "Client error"
  else if status / 100 = 5 then "Server error"
  else "Invalid status code"

/-- The message httpx formats into an HTTPStatusError (the form without a
redirect location): status-class label, status code, reason phrase and URL,
followed by an MDN pointer.  It is built from the status line, not from the
response body. -/
def httpErrorMessage (r : Response) : String :=
  statusClassLabel r.status_code ++ " \x27" ++ toString r.status_code ++ " "
    ++ r.reason_phrase ++ "\x27 for url \x27" ++ r.url
    ++ "\x27\nFor more information check: https://developer.mozilla.org/en-US/docs/Web/HTTP/Status/"
    ++ toString r.status_code

/-- httpx HTTPStatusError: carries the formatted message and the response. -/
structure HTTPStatusError where
  message : String
  response : Response

/-- httpx `Response.raise_for_status`: succeed on 2xx, otherwise raise an
HTTPStatusError carrying the formatted message and the response itself. -/
def Response.raise_for_status (r : Response) : Except HTTPStatusError Unit :=
  if r.is_success then Except.ok () else Except.error ⟨httpErrorMessage r, r⟩

/-- The exceptions an adapter call can propagate: an HTTPStatusError from
`raise_for_status`, or a JSON decoding error from `response.json`. -/
inductive AdapterError where
  | statusError : HTTPStatusError → AdapterError
  | jsonError : String → AdapterError

/-- Python `str` of the propagated exception, as interpolated by the tool
into its error text. -/
def AdapterError.message : AdapterError → String
  | AdapterError.statusError e => e.message
  | AdapterError.jsonError m => m

/-- The outbound HTTP request the adapter hands to the transport: method,
full URL, query parameters, the merged headers actually applied, optional
JSON body and optional form data. -/
structure Request where
  method : String
  url : String
  params : Option QueryParams
  headers : Headers
  body : Option Json
  formData : Option Headers

/-- A backend is the abstracted transport: it maps each outbound request
to the response the server produces for it. -/
abbrev Backend := Request → Response

/-- The RestfulAPIClient state after construction: stripped base URL,
timeout, and the default header mapping. -/
structure RestfulAPIClient where
  base_url : String
  timeout : Float
  default_headers : Headers

/-- RestfulAPIClient constructor: strip trailing slashes from the base
URL, start from the caller headers (or empty), add X-API-Key for a truthy
api_key, add an Authorization bearer header for a truthy bearer_token, and
add a Content-Type default only when none is present.  Python truthiness
on the optional strings: None and the empty string are both falsy. -/
def RestfulAPIClient.init (base_url : String) (timeout : Float)
    (headers : Option Headers) (api_key : Option String)
    (bearer_token : Option String) : RestfulAPIClient :=
  let dh0 : Headers := headersOrEmpty headers
  let dh1 : Headers :=
    match api_key with
    | some k => if k = "" then dh0 else dictSet dh0 "X-API-Key" k
    | none => dh0
  let dh2 : Headers :=
    match bearer_token with
    | some t => if t = "" then dh1 else dictSet dh1 "Authorization" ("Bearer " ++ t)
    | none => dh1
  let dh3 : Headers :=
    if dictContains dh2 "Content-Type" then dh2
    else dictSet dh2 "Content-Type" "application/json"
  ⟨rstripSlashes base_url, timeout, dh3⟩

/-- RestfulAPIClient._build_url: strip leading slashes from the endpoint
and join it to the stored base URL with a single slash. -/
def RestfulAPIClient._build_url (c : RestfulAPIClient) (endpoint : String) : String :=
  c.base_url ++ "/" ++ lstripSlashes endpoint

/-- The outbound request a method call produces: built URL, the given
query parameters and bodies, and the default headers merged with the
per-call headers by the transport. -/
def RestfulAPIClient.outbound (c : RestfulAPIClient) (method : String)
    (endpoint : String) (params : Option QueryParams)
    (headers : Option Headers) (body : Option Json)
    (formData : Option Headers) : Request :=
  ⟨method, c._build_url endpoint, params,
    mergeHeaders c.default_headers (headersOrEmpty headers), body, formData⟩

/-- The shared tail of get, post, put and patch:
`response.raise_for_status()` followed by `return response.json()`. -/
def handleJsonResponse (r : Response) : Except AdapterError Json :=
  match r.raise_for_status with
  | Except.error e => Except.error (AdapterError.statusError e)
  | Except.ok _ =>
    match r.jsonBody with
    | Except.ok j => Except.ok j
    | Except.error m => Except.error (AdapterError.jsonError m)

/-- RestfulAPIClient.get: issue a GET for the built URL with the given
query parameters and headers, raise on non-2xx, return the parsed body. -/
def RestfulAPIClient.get (c : RestfulAPIClient) (endpoint : String)
    (params : Option QueryParams) (headers : Option Headers)
    (backend : Backend) : Except AdapterError Json :=
  handleJsonResponse (backend (c.outbound "GET" endpoint params headers none none))

/-- RestfulAPIClient.post: issue a POST with optional form data and JSON
body, raise on non-2xx, return the parsed body. -/
def RestfulAPIClient.post (c : RestfulAPIClient) (endpoint : String)
    (data : Option Headers) (json : Option Json) (headers : Option Headers)
    (backend : Backend) : Except AdapterError Json :=
  handleJsonResponse (backend (c.outbound "POST" endpoint none headers json data))

/-- RestfulAPIClient.put: issue a PUT with an optional JSON body, raise on
non-2xx, return the parsed body. -/
def RestfulAPIClient.put (c : RestfulAPIClient) (endpoint : String)
    (json : Option Json) (headers : Option Headers)
    (backend : Backend) : Except AdapterError Json :=
  handleJsonResponse (backend (c.outbound "PUT" endpoint none headers json none))

/-- RestfulAPIClient.patch: issue a PATCH with an optional JSON body,
raise on non-2xx, return the parsed body. -/
def RestfulAPIClient.patch (c : RestfulAPIClient) (endpoint : String)
    (json : Option Json) (headers : Option Headers)
    (backend : Backend) : Except AdapterError Json :=
  handleJsonResponse (backend (c.outbound "PATCH" endpoint none headers json none))

/-- RestfulAPIClient.delete: issue a DELETE, raise on non-2xx; then return
the parsed body when the response has content, and None otherwise.  An
empty decoded body models empty `response.content`. -/
def RestfulAPIClient.delete (c : RestfulAPIClient) (endpoint : String)
    (headers : Option Headers) (backend : Backend) :
    Except AdapterError (Option Json) :=
  let r := backend (c.outbound "DELETE" endpoint none headers none none)
  match r.raise_for_status with
  | Except.error e => Except.error (AdapterError.statusError e)
  | Except.ok _ =>
    if r.text ≠ "" then
      match r.jsonBody with
      | Except.ok j => Except.ok (some j)
      | Except.error m => Except.error (AdapterError.jsonError m)
    else Except.ok none

/-- RestfulAPIClient.request: issue a request with an arbitrary verb
(uppercased), raise on non-2xx; return the parsed body when the response
has content, and return an empty mapping otherwise. -/
def RestfulAPIClient.request (c : RestfulAPIClient) (method : String)
    (endpoint : String) (params : Option QueryParams)
    (headers : Option Headers) (backend : Backend) :
    Except AdapterError Json :=
  let r := backend (c.outbound method.toUpper endpoint params headers none none)
  match r.raise_for_status with
  | Except.error e => Except.error (AdapterError.statusError e)
  | Except.ok _ =>
    if r.text ≠ "" then
      match r.jsonBody with
      | Except.ok j => Except.ok j
      | Except.error m => Except.error (AdapterError.jsonError m)
    else Except.ok (Json.obj [])

/-- create_client: construct a RestfulAPIClient with the default timeout
and no extra headers. -/
def create_client (base_url : String) (api_key : Option String)
    (bearer_token : Option String) : RestfulAPIClient :=
  RestfulAPIClient.init base_url 30.0 none api_key bearer_token

/-- get_response, the tolerant response normalizer: on status 200 return
the parsed JSON body, otherwise return the three-field failure object. -/
def get_response (response : Response) : Except String Json :=
  if response.status_code = 200 then response.jsonBody
  else
    Except.ok (Json.obj
      [("result", Json.str "failed"),
       ("code", Json.num (response.status_code : Int)),
       ("message", Json.str response.text)])

/-- The default API server URL from ApiServerSettings (environment
overrides are outside the model). -/
def api_server_settings_server_url : String := "http://localhost:9000/"

/-- The HTTP client the hand-written tool server constructs at startup:
`create_client(api_server_settings.server_url)`. -/
def ticketing_client : RestfulAPIClient :=
  create_client api_server_settings_server_url none none

/-- One block of tool result content, of type "text". -/
structure TextContent where
  type : String
  text : String

/-- A tool call result: content blocks and optional structured content
(absent in the error branch). -/
structure CallToolResult where
  content : List TextContent
  structuredContent : Option Json

/-- The outbound request the get_tickets tool issues: a GET on /tickets
whose query parameters always bind the key "owner" to the owner argument,
with no per-call headers. -/
def ticketsRequest (owner : Option String) : Request :=
  ticketing_client.outbound "GET" "/tickets" (some [("owner", owner)]) none none none

/-- The get_tickets tool: call the adapter's get on /tickets with the
owner parameter; on success wrap a list result into a single-key object
for structured content and render the result as text; on any propagated
exception return a text-only result prefixed with "Error: ". -/
def get_tickets (owner : Option String) (backend : Backend) : CallToolResult :=
  match ticketing_client.get "/tickets" (some [("owner", owner)]) none backend with
  | Except.ok result =>
    let structured_content : Json :=
      match result with
      | Json.arr xs => Json.obj [("tickets", Json.arr xs)]
      | other => other
    ⟨[⟨"text", pythonRepr result⟩], some structured_content⟩
  | Except.error e => ⟨[⟨"text", "Error: " ++ e.message⟩], none⟩

/-- Lookup in an optional query-parameter mapping: the outer Option is
key presence, the inner Option is the bound value (a string or None). -/
def lookupParam (ps : Option QueryParams) (k : String) : Option (Option String) :=
  match ps with
  | none => none
  | some l => (l.find? (fun kv => kv.1 == k)).map (fun kv => kv.2)

/-- Stub backend response: HTTP 500 with body "internal error" (which is
not valid JSON). -/
def stub500 : Response :=
  ⟨500, "Internal Server Error", "http://localhost:9000/tickets",
    "internal error", Except.error "Expecting value: line 1 column 1 (char 0)"⟩

/-- Stub backend response: HTTP 503 with a plain-text body. -/
def stub503 : Response :=
  ⟨503, "Service Unavailable", "http://localhost:9000/tickets",
    "try again later", Except.error "Expecting value: line 1 column 1 (char 0)"⟩

/-- Stub backend response: HTTP 403 with body "forbidden". -/
def stub403 : Response :=
  ⟨403, "Forbidden", "http://localhost:9000/tickets",
    "forbidden", Except.error "Expecting value: line 1 column 1 (char 0)"⟩

/-- Stub backend response: HTTP 200 whose body is not valid JSON. -/
def stub200bad : Response :=
  ⟨200, "OK", "http://localhost:9000/tickets",
    "<html>oops</html>", Except.error "Expecting value: line 1 column 1 (char 0)"⟩

/-- Stub backend response: HTTP 204 with an empty body. -/
def stub204 : Response :=
  ⟨204, "No Content", "http://localhost:9000/tickets/1",
    "", Except.error "Expecting value: line 1 column 1 (char 0)"⟩

/-- Stub backend response: HTTP 200 with a small JSON object body. -/
def stub200obj : Response :=
  ⟨200, "OK", "http://localhost:9000/tickets",
    "\x7b\"ok\": true\x7d", Except.ok (Json.obj [("ok", Json.bool true)])⟩

/-- Stub backend response: HTTP 200 with the one-ticket JSON list body
for owner alice. -/
def stubAliceList : Response :=
  ⟨200, "OK", "http://localhost:9000/tickets",
    "[\x7b\"id\": \"t1\", \"owner\": \"alice\"\x7d]",
    Except.ok (Json.arr [Json.obj [("id", Json.str "t1"), ("owner", Json.str "alice")]])⟩

theorem dictGet_set_same (d : Headers) (k v : String) :
    dictGet (dictSet d k v) k = some v := by
  induction d with
  | nil => simp [dictSet, dictGet, List.find?]
  | cons kv rest ih =>
    by_cases h : kv.1 == k
    · simp [dictSet, h, dictGet, List.find?]
    · simpa [dictSet, h, dictGet, List.find?] using ih

theorem dictGet_set_other (d : Headers) (k' v k : String) (hne : k' ≠ k) :
    dictGet (dictSet d k' v) k = dictGet d k := by
  have hne' : (k' == k) = false := beq_eq_false_iff_ne.mpr hne
  induction d with
  | nil => simp [dictSet, dictGet, List.find?, hne']
  | cons kv rest ih =>
    by_cases h : kv.1 == k'
    · have hkk : (kv.1 == k) = false := by
        have : kv.1 = k' := beq_iff_eq.mp h
        simpa [this] using hne'
      simp [dictSet, h, dictGet, List.find?, hne', hkk]
    · by_cases h2 : kv.1 == k
      · simp [dictSet, h, dictGet, List.find?, h2]
      · simpa [dictSet, h, dictGet, List.find?, h2] using ih

theorem dictContains_set_other (d : Headers) (k' v k : String) (hne : k' ≠ k) :
    dictContains (dictSet d k' v) k = dictContains d k := by
  have hne' : (k' == k) = false := beq_eq_false_iff_ne.mpr hne
  induction d with
  | nil => simp [dictSet, dictContains, hne']
  | cons kv rest ih =>
    by_cases h : kv.1 == k'
    · have hkk : (kv.1 == k) = false := by
        have : kv.1 = k' := beq_iff_eq.mp h
        simpa [this] using hne'
      simp [dictSet, h, dictContains, hne', hkk]
    · by_cases h2 : kv.1 == k
      · simp [dictSet, h, dictContains, h2]
      · simpa [dictSet, h, dictContains, h2] using ih

theorem dictContains_of_get (d : Headers) (k v : String)
    (h : dictGet d k = some v) : dictContains d k = true := by
  induction d with
  | nil => simp [dictGet, List.find?] at h
  | cons kv rest ih =>
    by_cases h1 : kv.1 == k
    · simp [dictContains, h1]
    · have hstep : dictGet (kv :: rest) k = dictGet rest k := by
        simp [dictGet, List.find?, h1]
      rw [hstep] at h
      simpa [dictContains, h1] using ih h

theorem hasHeaderCI_congr (p : Headers) (a b : String)
    (h : lowerName a = lowerName b) : hasHeaderCI p a = hasHeaderCI p b := by
  simp [hasHeaderCI, h]

theorem hasHeaderCI_false_of_none (p : Headers) (k : String)
    (h : getHeaderCI p k = none) : hasHeaderCI p k = false := by
  induction p with
  | nil => simp [hasHeaderCI]
  | cons kv rest ih =>
    by_cases h1 : lowerName kv.1 == lowerName k
    · simp [getHeaderCI, List.find?, h1] at h
    · have hstep : getHeaderCI (kv :: rest) k = getHeaderCI rest k := by
        simp [getHeaderCI, List.find?, h1]
      rw [hstep] at h
      simpa [hasHeaderCI, h1] using ih h

theorem hasHeaderCI_true_of_some (p : Headers) (k v : String)
    (h : getHeaderCI p k = some v) : hasHeaderCI p k = true := by
  induction p with
  | nil => simp [getHeaderCI, List.find?] at h
  | cons kv rest ih =>
    by_cases h1 : lowerName kv.1 == lowerName k
    · simp [hasHeaderCI, h1]
    · have hstep : getHeaderCI (kv :: rest) k = getHeaderCI rest k := by
        simp [getHeaderCI, List.find?, h1]
      rw [hstep] at h
      simpa [hasHeaderCI, h1] using ih h

theorem getHeaderCI_merge_none (d p : Headers) (k : String)
    (hp : getHeaderCI p k = none) :
    getHeaderCI (mergeHeaders d p) k = getHeaderCI d k := by
  have hp0 : hasHeaderCI p k = false := hasHeaderCI_false_of_none p k hp
  induction d with
  | nil => simpa [mergeHeaders, getHeaderCI] using hp
  | cons a t ih =>
    by_cases hx : lowerName a.1 == lowerName k
    · have hax : hasHeaderCI p a.1 = false := by
        rw [hasHeaderCI_congr p a.1 k (beq_iff_eq.mp hx)]; exact hp0
      simp [mergeHeaders, List.filter_cons, hax, getHeaderCI, List.find?, hx]
    · by_cases hb : hasHeaderCI p a.1
      · simpa [mergeHeaders, List.filter_cons, hb, getHeaderCI, List.find?, hx] using ih
      · simpa [mergeHeaders, List.filter_cons, hb, getHeaderCI, List.find?, hx] using ih

theorem getHeaderCI_merge_some (d p : Headers) (k v : String)
    (hp : getHeaderCI p k = some v) :
    getHeaderCI (mergeHeaders d p) k = some v := by
  have hp1 : hasHeaderCI p k = true := hasHeaderCI_true_of_some p k v hp
  induction d with
  | nil => simpa [mergeHeaders, getHeaderCI] using hp
  | cons a t ih =>
    by_cases hx : lowerName a.1 == lowerName k
    · have hax : hasHeaderCI p a.1 = true := by
        rw [hasHeaderCI_congr p a.1 k (beq_iff_eq.mp hx)]; exact hp1
      simpa [mergeHeaders, List.filter_cons, hax] using ih
    · by_cases hb : hasHeaderCI p a.1
      · simpa [mergeHeaders, List.filter_cons, hb] using ih
      · simpa [mergeHeaders, List.filter_cons, hb, getHeaderCI, List.find?, hx] using ih

theorem is_success_eq_false (r : Response)
    (h : ¬ (200 ≤ r.status_code ∧ r.status_code < 300)) :
    r.is_success = false := by
  simp [Response.is_success, decide_eq_false_iff_not]
  omega

theorem handleJsonResponse_error (r : Response) (h : r.is_success = false) :
    handleJsonResponse r
      = Except.error (AdapterError.statusError ⟨httpErrorMessage r, r⟩) := by
  simp [handleJsonResponse, Response.raise_for_status, h]

theorem handleJsonResponse_ok (r : Response) (j : Json)
    (h : r.is_success = true) (hj : r.jsonBody = Except.ok j) :
    handleJsonResponse r = Except.ok j := by
  simp [handleJsonResponse, Response.raise_for_status, h, hj]

/-- C4 (confirmed): URL building is invariant under leading and trailing
slash variation.  For every base URL B and endpoint E the client built
from B issues its requests at the URL formed from B with trailing slashes
stripped, a single slash, and E with leading slashes stripped; in
particular the endpoints /tickets and tickets against the base URLs
http://host/ and http://host all resolve to http://host/tickets. -/
theorem build_url_slash_invariant :
    (∀ (B E : String) (t : Float) (h : Option Headers) (ak bt : Option String),
        (RestfulAPIClient.init B t h ak bt)._build_url E
          = rstripSlashes B ++ "/" ++ lstripSlashes E) ∧
    (RestfulAPIClient.init "http://host/" 30.0 none none none)._build_url "/tickets"
        = "http://host/tickets" ∧
    (RestfulAPIClient.init "http://host/" 30.0 none none none)._build_url "tickets"
        = "http://host/tickets" ∧
    (RestfulAPIClient.init "http://host" 30.0 none none none)._build_url "/tickets"
        = "http://host/tickets" ∧
    (RestfulAPIClient.init "http://host" 30.0 none none none)._build_url "tickets"
        = "http://host/tickets" := by
  refine ⟨fun B E t h ak bt => rfl, ?_, ?_, ?_, ?_⟩ <;> decide

/-- C2 (confirmed): for every client, endpoint E and query-parameter
mapping Q, when the backend answers the built GET request with status 200
and a body parsing to the JSON value j, get(E, Q) returns exactly j,
unmodified. -/
theorem get_returns_parsed_body (c : RestfulAPIClient) (E : String)
    (Q : Option QueryParams) (backend : Backend) (j : Json)
    (h200 : (backend (c.outbound "GET" E Q none none none)).status_code = 200)
    (hjson : (backend (c.outbound "GET" E Q none none none)).jsonBody = Except.ok j) :
    c.get E Q none backend = Except.ok j := by
  have hs : (backend (c.outbound "GET" E Q none none none)).is_success = true := by
    unfold Response.is_success
    rw [h200]
    decide
  exact handleJsonResponse_ok _ j hs hjson

/-- C2 witness: a 200 stub with a small JSON object body is returned
verbatim. -/
theorem get_returns_parsed_body_witness :
    ticketing_client.get "/tickets" none none (fun _ => stub200obj)
      = Except.ok (Json.obj [("ok", Json.bool true)]) :=
  get_returns_parsed_body ticketing_client "/tickets" none (fun _ => stub200obj)
    (Json.obj [("ok", Json.bool true)]) rfl rfl

/-- C5 (confirmed): delete against a backend answering with a 2xx status
returns the explicit no-content result None when the body is empty, and
the parsed JSON body when the response carries a body. -/
theorem delete_no_content_or_body (c : RestfulAPIClient) (E : String)
    (hd : Option Headers) (backend : Backend)
    (h2xx : 200 ≤ (backend (c.outbound "DELETE" E none hd none none)).status_code
        ∧ (backend (c.outbound "DELETE" E none hd none none)).status_code < 300) :
    ((backend (c.outbound "DELETE" E none hd none none)).text = "" →
        c.delete E hd backend = Except.ok none) ∧
    (∀ j, (backend (c.outbound "DELETE" E none hd none none)).jsonBody = Except.ok j →
        (backend (c.outbound "DELETE" E none hd none none)).text ≠ "" →
        c.delete E hd backend = Except.ok (some j)) := by
  have hs : (backend (c.outbound "DELETE" E none hd none none)).is_success = true := by
    unfold Response.is_success
    exact decide_eq_true h2xx
  constructor
  · intro he
    simp [RestfulAPIClient.delete, Response.raise_for_status, hs, he]
  · intro j hj hne
    simp [RestfulAPIClient.delete, Response.raise_for_status, hs, hne, hj]

/-- C5 witness: delete against a 204 stub with an empty body yields the
no-content result, not a JSON-parse failure. -/
theorem delete_no_content_or_body_witness :
    ticketing_client.delete "/tickets/1" none (fun _ => stub204) = Except.ok none :=
  (delete_no_content_or_body ticketing_client "/tickets/1" none (fun _ => stub204)
    (by decide)).1 rfl

/-- C3 counterexample: get_response is not total on all responses: on a
response with status 200 whose body is not valid JSON it propagates the
JSON decoding failure (the claim says it never raises). -/
theorem get_response_raises_on_bad_json :
    get_response stub200bad
      = Except.error "Expecting value: line 1 column 1 (char 0)" := rfl

/-- C3 (corrected, amended): for every response whose status is not 200,
get_response returns, without raising, exactly the three-field object
with the failed marker, the status code and the body text as message; for
a status-200 response it returns the outcome of parsing the body as JSON,
so it raises exactly when that parse fails. -/
theorem get_response_contract (r : Response) :
    (r.status_code ≠ 200 →
        get_response r = Except.ok (Json.obj
          [("result", Json.str "failed"),
           ("code", Json.num (r.status_code : Int)),
           ("message", Json.str r.text)])) ∧
    (r.status_code = 200 → get_response r = r.jsonBody) := by
  constructor <;> intro h <;> simp [get_response, h]

/-- C3 witness: a status 403 response with body forbidden normalizes to
the failed object with code 403 and message forbidden. -/
theorem get_response_contract_witness :
    get_response stub403 = Except.ok (Json.obj
      [("result", Json.str "failed"), ("code", Json.num 403),
       ("message", Json.str "forbidden")]) :=
  (get_response_contract stub403).1 (by decide)

/-- C1 (corrected, amended): for every adapter method (get, post, put,
patch, delete, request) and every stub backend whose response r has a
non-2xx status S, the call raises a failure rather than returning a
result: it propagates the HTTPStatusError whose attached response is r,
so the failure carries status code S and the full response body text; its
message is the formatted status description produced by the transport
library, not the response body text. -/
theorem adapter_raises_on_non_2xx (c : RestfulAPIClient)
    (endpoint method : String) (params : Option QueryParams)
    (hd : Option Headers) (dataArg : Option Headers) (jsonArg : Option Json)
    (r : Response) (S : Nat) (hS : r.status_code = S)
    (hfail : ¬ (200 ≤ S ∧ S < 300)) :
    c.get endpoint params hd (fun _ => r)
        = Except.error (AdapterError.statusError ⟨httpErrorMessage r, r⟩) ∧
    c.post endpoint dataArg jsonArg hd (fun _ => r)
        = Except.error (AdapterError.statusError ⟨httpErrorMessage r, r⟩) ∧
    c.put endpoint jsonArg hd (fun _ => r)
        = Except.error (AdapterError.statusError ⟨httpErrorMessage r, r⟩) ∧
    c.patch endpoint jsonArg hd (fun _ => r)
        = Except.error (AdapterError.statusError ⟨httpErrorMessage r, r⟩) ∧
    c.delete endpoint hd (fun _ => r)
        = Except.error (AdapterError.statusError ⟨httpErrorMessage r, r⟩) ∧
    c.request method endpoint params hd (fun _ => r)
        = Except.error (AdapterError.statusError ⟨httpErrorMessage r, r⟩) ∧
    (HTTPStatusError.mk (httpErrorMessage r) r).response.status_code = S ∧
    (HTTPStatusError.mk (httpErrorMessage r) r).response.text = r.text := by
  have hf : r.is_success = false := by
    apply is_success_eq_false
    rw [hS]
    exact hfail
  refine ⟨?_, ?_, ?_, ?_, ?_, ?_, hS, rfl⟩
  · exact handleJsonResponse_error r hf
  · exact handleJsonResponse_error r hf
  · exact handleJsonResponse_error r hf
  · exact handleJsonResponse_error r hf
  · simp [RestfulAPIClient.delete, Response.raise_for_status, hf]
  · simp [RestfulAPIClient.request, Response.raise_for_status, hf]

/-- C1 witness: all six adapter methods raise on a stub returning status
503, and the raised failure carries status 503 and the stub body text. -/
theorem adapter_raises_on_non_2xx_witness :
    ticketing_client.get "/tickets" none none (fun _ => stub503)
        = Except.error (AdapterError.statusError ⟨httpErrorMessage stub503, stub503⟩) ∧
    ticketing_client.post "/tickets" none none none (fun _ => stub503)
        = Except.error (AdapterError.statusError ⟨httpErrorMessage stub503, stub503⟩) ∧
    ticketing_client.put "/tickets" none none (fun _ => stub503)
        = Except.error (AdapterError.statusError ⟨httpErrorMessage stub503, stub503⟩) ∧
    ticketing_client.patch "/tickets" none none (fun _ => stub503)
        = Except.error (AdapterError.statusError ⟨httpErrorMessage stub503, stub503⟩) ∧
    ticketing_client.delete "/tickets" none (fun _ => stub503)
        = Except.error (AdapterError.statusError ⟨httpErrorMessage stub503, stub503⟩) ∧
    ticketing_client.request "get" "/tickets" none none (fun _ => stub503)
        = Except.error (AdapterError.statusError ⟨httpErrorMessage stub503, stub503⟩) ∧
    (HTTPStatusError.mk (httpErrorMessage stub503) stub503).response.status_code = 503 ∧
    (HTTPStatusError.mk (httpErrorMessage stub503) stub503).response.text = stub503.text :=
  adapter_raises_on_non_2xx ticketing_client "/tickets" "get" none none none none
    stub503 503 rfl (by decide)

/-- C1 counterexample: against a backend returning status 500 with body
internal error, get raises the HTTPStatusError as claimed, but the
message that failure carries is the formatted status description, which
is not equal to the response body text. -/
theorem get_failure_message_not_body :
    ticketing_client.get "/tickets" (some [("owner", some "bob")]) none (fun _ => stub500)
      = Except.error (AdapterError.statusError ⟨httpErrorMessage stub500, stub500⟩)
    ∧ httpErrorMessage stub500 ≠ "internal error" :=
  ⟨handleJsonResponse_error stub500 (by decide), by decide⟩

/-- C6 counterexample: with caller headers already binding Content-Type
to application/json, the constructed default headers contain Content-Type
application/json even though the caller did supply a Content-Type header,
refuting the stated if-and-only-if; and supplying both authentication
values as empty strings (falsy in Python) sets no X-API-Key header. -/
theorem init_headers_counterexample :
    dictGet (RestfulAPIClient.init "http://host" 30.0
        (some [("Content-Type", "application/json")]) (some "k") (some "t")).default_headers
        "Content-Type" = some "application/json" ∧
    dictContains [("Content-Type", "application/json")] "Content-Type" = true ∧
    dictContains (RestfulAPIClient.init "http://host" 30.0 none
        (some "") (some "")).default_headers "X-API-Key" = false := by
  refine ⟨?_, ?_, ?_⟩ <;> decide

/-- C6 (corrected, amended): after construction with a non-empty API key
and a non-empty bearer token both supplied, the stored default headers
bind X-API-Key to the key and Authorization to Bearer followed by the
token; the Content-Type application/json default is added exactly when
the caller headers contain no Content-Type entry, and a caller-supplied
Content-Type value is preserved unchanged. -/
theorem init_headers_contract (B : String) (t0 : Float) (h0 : Headers)
    (k t : String) (hk : k ≠ "") (ht : t ≠ "") :
    dictGet (RestfulAPIClient.init B t0 (some h0) (some k) (some t)).default_headers
        "X-API-Key" = some k ∧
    dictGet (RestfulAPIClient.init B t0 (some h0) (some k) (some t)).default_headers
        "Authorization" = some ("Bearer " ++ t) ∧
    (dictContains h0 "Content-Type" = false →
        dictGet (RestfulAPIClient.init B t0 (some h0) (some k) (some t)).default_headers
          "Content-Type" = some "application/json") ∧
    (∀ v, dictGet h0 "Content-Type" = some v →
        dictGet (RestfulAPIClient.init B t0 (some h0) (some k) (some t)).default_headers
          "Content-Type" = some v) := by
  have hAX : ("Authorization" : String) ≠ "X-API-Key" := by decide
  have hCX : ("Content-Type" : String) ≠ "X-API-Key" := by decide
  have hCA : ("Content-Type" : String) ≠ "Authorization" := by decide
  have hXC : ("X-API-Key" : String) ≠ "Content-Type" := by decide
  have hAC : ("Authorization" : String) ≠ "Content-Type" := by decide
  simp only [RestfulAPIClient.init, headersOrEmpty, if_neg hk, if_neg ht]
  by_cases hct : dictContains
      (dictSet (dictSet h0 "X-API-Key" k) "Authorization" ("Bearer " ++ t)) "Content-Type"
  · simp only [hct, if_true]
    refine ⟨?_, ?_, ?_, ?_⟩
    · rw [dictGet_set_other _ _ _ _ hAX, dictGet_set_same]
    · rw [dictGet_set_same]
    · intro h0ct
      exfalso
      rw [dictContains_set_other _ _ _ _ hAC, dictContains_set_other _ _ _ _ hXC,
        h0ct] at hct
      exact Bool.false_ne_true hct
    · intro v hv
      rw [dictGet_set_other _ _ _ _ hAC, dictGet_set_other _ _ _ _ hXC]
      exact hv
  · rw [if_neg hct]
    refine ⟨?_, ?_, ?_, ?_⟩
    · rw [dictGet_set_other _ _ _ _ hCX, dictGet_set_other _ _ _ _ hAX,
        dictGet_set_same]
    · rw [dictGet_set_other _ _ _ _ hCA, dictGet_set_same]
    · intro h0ct
      rw [dictGet_set_same]
    · intro v hv
      exfalso
      rw [dictContains_set_other _ _ _ _ hAC, dictContains_set_other _ _ _ _ hXC] at hct
      exact hct (dictContains_of_get h0 "Content-Type" v hv)

/-- C6 witness: constructing with empty caller headers, API key key1 and
bearer token tok1 yields headers binding X-API-Key, Authorization and the
Content-Type default. -/
theorem init_headers_contract_witness :
    dictGet (RestfulAPIClient.init "https://api.example.com" 30.0 (some [])
        (some "key1") (some "tok1")).default_headers "X-API-Key" = some "key1" ∧
    dictGet (RestfulAPIClient.init "https://api.example.com" 30.0 (some [])
        (some "key1") (some "tok1")).default_headers "Authorization" = some "Bearer tok1" ∧
    (dictContains ([] : Headers) "Content-Type" = false →
        dictGet (RestfulAPIClient.init "https://api.example.com" 30.0 (some [])
          (some "key1") (some "tok1")).default_headers "Content-Type"
          = some "application/json") ∧
    (∀ v, dictGet ([] : Headers) "Content-Type" = some v →
        dictGet (RestfulAPIClient.init "https://api.example.com" 30.0 (some [])
          (some "key1") (some "tok1")).default_headers "Content-Type" = some v) :=
  init_headers_contract "https://api.example.com" 30.0 [] "key1" "tok1"
    (by decide) (by decide)

/-- The adapter instance constructed with bearer token abc, as in the
header-merging property. -/
def abcClient (B : String) : RestfulAPIClient := create_client B none (some "abc")

/-- C7 (confirmed): for a client constructed with bearer token abc, every
outbound request whose per-call headers carry no Authorization entry is
sent with Authorization Bearer abc; a per-call Authorization entry
replaces the default for that one request only (the stored defaults are a
fixed part of the immutable client value); and per-call headers augment
rather than discard the defaults: a key absent from the per-call headers
keeps its default value and a key present takes the per-call value. -/
theorem bearer_header_merging (B method endpoint : String)
    (params : Option QueryParams) (percall : Headers)
    (body : Option Json) (fd : Option Headers) :
    (getHeaderCI percall "Authorization" = none →
      getHeaderCI ((abcClient B).outbound method endpoint params (some percall)
        body fd).headers "Authorization" = some "Bearer abc") ∧
    (∀ v, getHeaderCI percall "Authorization" = some v →
      getHeaderCI ((abcClient B).outbound method endpoint params (some percall)
        body fd).headers "Authorization" = some v) ∧
    (∀ k, getHeaderCI percall k = none →
      getHeaderCI ((abcClient B).outbound method endpoint params (some percall)
        body fd).headers k = getHeaderCI (abcClient B).default_headers k) ∧
    (∀ k v, getHeaderCI percall k = some v →
      getHeaderCI ((abcClient B).outbound method endpoint params (some percall)
        body fd).headers k = some v) := by
  refine ⟨?_, ?_, ?_, ?_⟩
  · intro hnone
    have hmerge := getHeaderCI_merge_none (abcClient B).default_headers percall
      "Authorization" hnone
    have hdef : getHeaderCI (abcClient B).default_headers "Authorization"
        = some "Bearer abc" := rfl
    exact hmerge.trans hdef
  · intro v hv
    exact getHeaderCI_merge_some _ _ _ _ hv
  · intro k hk
    exact getHeaderCI_merge_none _ _ _ hk
  · intro k v hv
    exact getHeaderCI_merge_some _ _ _ _ hv

/-- C7 witness: with no per-call Authorization the outbound request
carries Bearer abc, and a per-call override replaces it for that call. -/
theorem bearer_header_merging_witness :
    getHeaderCI ((abcClient "http://host").outbound "GET" "/tickets" none (some [])
        none none).headers "Authorization" = some "Bearer abc" ∧
    getHeaderCI ((abcClient "http://host").outbound "GET" "/tickets" none
        (some [("Authorization", "Bearer other")]) none none).headers "Authorization"
        = some "Bearer other" :=
  ⟨(bearer_header_merging "http://host" "GET" "/tickets" none [] none none).1 rfl,
   (bearer_header_merging "http://host" "GET" "/tickets" none
      [("Authorization", "Bearer other")] none none).2.1 "Bearer other" rfl⟩

/-- C8 (confirmed): whenever the backend answers the tickets request with
status 200 and a body parsing to a JSON list L, get_tickets returns the
structured single-key object binding tickets to L (never a bare array at
the top level) together with the text rendering of L. -/
theorem get_tickets_wraps_lists (owner : Option String) (backend : Backend)
    (L : List Json)
    (h200 : (backend (ticketsRequest owner)).status_code = 200)
    (hbody : (backend (ticketsRequest owner)).jsonBody = Except.ok (Json.arr L)) :
    get_tickets owner backend =
      ⟨[⟨"text", pythonRepr (Json.arr L)⟩],
        some (Json.obj [("tickets", Json.arr L)])⟩ := by
  have hs : (backend (ticketsRequest owner)).is_success = true := by
    unfold Response.is_success
    rw [h200]
    decide
  have hget : ticketing_client.get "/tickets" (some [("owner", owner)]) none backend
      = Except.ok (Json.arr L) :=
    handleJsonResponse_ok _ _ hs hbody
  simp [get_tickets, hget]

/-- C8 witness: get_tickets for owner alice against a backend returning
the one-ticket list yields the wrapped structured content and the text
rendering of that list. -/
theorem get_tickets_wraps_lists_witness :
    get_tickets (some "alice") (fun _ => stubAliceList) =
      ⟨[⟨"text", "[\x7b\x27id\x27: \x27t1\x27, \x27owner\x27: \x27alice\x27\x7d]"⟩],
        some (Json.obj [("tickets",
          Json.arr [Json.obj [("id", Json.str "t1"), ("owner", Json.str "alice")]])])⟩ :=
  get_tickets_wraps_lists (some "alice") (fun _ => stubAliceList)
    [Json.obj [("id", Json.str "t1"), ("owner", Json.str "alice")]] rfl rfl

/-- C9 (confirmed): whenever the adapter call inside get_tickets raises,
the tool returns a text-content result whose text is Error: followed by
the failure message, and the result carries no structured content. -/
theorem get_tickets_error_text_only (owner : Option String) (backend : Backend)
    (e : AdapterError)
    (herr : ticketing_client.get "/tickets" (some [("owner", owner)]) none backend
      = Except.error e) :
    get_tickets owner backend = ⟨[⟨"text", "Error: " ++ e.message⟩], none⟩ := by
  simp [get_tickets, herr]

/-- C9 witness: against a backend returning HTTP 500 with body internal
error, get_tickets returns a text-only error result and no structured
content. -/
theorem get_tickets_error_text_only_witness :
    get_tickets (some "bob") (fun _ => stub500)
      = ⟨[⟨"text", "Error: " ++ httpErrorMessage stub500⟩], none⟩ :=
  get_tickets_error_text_only (some "bob") (fun _ => stub500)
    (AdapterError.statusError ⟨httpErrorMessage stub500, stub500⟩)
    (handleJsonResponse_error stub500 (by decide))

/-- C10 (confirmed): every invocation of get_tickets issues its one
backend call at exactly the tickets request for its owner argument, whose
query-parameter mapping always contains the key owner bound to the owner
value, the absent (None) case included; consequently two backends that
agree on that single request produce the same tool result. -/
theorem get_tickets_owner_always_present (owner : Option String)
    (b1 b2 : Backend)
    (hagree : b1 (ticketsRequest owner) = b2 (ticketsRequest owner)) :
    lookupParam (ticketsRequest owner).params "owner" = some owner ∧
    get_tickets owner b1 = get_tickets owner b2 := by
  constructor
  · rfl
  · have h2 : ticketing_client.get "/tickets" (some [("owner", owner)]) none b1
        = ticketing_client.get "/tickets" (some [("owner", owner)]) none b2 :=
      congrArg handleJsonResponse hagree
    unfold get_tickets
    rw [h2]

/-- C10 witness: with the owner argument absent (None), the issued
request still binds the owner key, to None. -/
theorem get_tickets_owner_always_present_witness :
    lookupParam (ticketsRequest none).params "owner" = some none ∧
    get_tickets none (fun _ => stubAliceList) = get_tickets none (fun _ => stubAliceList) :=
  get_tickets_owner_always_present none (fun _ => stubAliceList)
    (fun _ => stubAliceList) rfl
